import Mathlib

/-!
Verification of `typeform_browserless.py` (a batch job that fills a Typeform
from Supabase rows via GPT-synthesised answers and a Playwright browser).

The script is shallowly embedded:
* JSON scalar values flowing through the answers dict become `JVal`
  (Python truthiness and `str()` are modelled on them);
* each external browser/network call becomes one failable step of a small
  state monad `M`; an environment `Env` decides, per call index, whether the
  call raises, and supplies the data some calls return;
* the trace of attempted calls is recorded, so properties about which UI
  actions the driver performs are statements about the trace.

Fixed pauses (`time.sleep`, `page.wait_for_timeout`) and `print` calls are
modelled as effect-free; string predicates (`str.isdigit`, `int()` parsing,
`str.lower`) are modelled over ASCII.
-/

namespace Typeform

/-- A JSON scalar value as found in the GPT-produced answers dict.
`jnull` doubles as Python `None`, which is also what `dict.get` returns
for a missing key. -/
inductive JVal where
  | jstr (s : String)
  | jnum (n : Int)
  | jbool (b : Bool)
  | jnull
  deriving DecidableEq, Repr

/-- Python truthiness of a `JVal` (`bool(v)`). -/
def truthy : JVal → Bool
  | .jstr s => s ≠ ""
  | .jnum n => n ≠ 0
  | .jbool b => b
  | .jnull => false

/-- Decimal digit character, `chr(48 + d)`. -/
def digitChar (d : Nat) : Char := Char.ofNat (48 + d)

/-- Decimal digits of `n` (most significant first), prepended to `acc`;
fuel-driven so that it reduces structurally. -/
def natDigsAux : Nat → Nat → List Char → List Char
  | 0, _, acc => acc
  | fuel + 1, n, acc =>
    if n < 10 then digitChar n :: acc
    else natDigsAux fuel (n / 10) (digitChar (n % 10) :: acc)

/-- Decimal representation of a natural number, as Python `str`
produces it. -/
def natDigs (n : Nat) : List Char := natDigsAux (n + 1) n []

/-- Python `str` of an integer. -/
def pyIntStr (n : Int) : String :=
  if n < 0 then ⟨'-' :: natDigs n.natAbs⟩ else ⟨natDigs n.natAbs⟩

/-- Python `str(v)` for a JSON scalar. -/
def pyStr : JVal → String
  | .jstr s => s
  | .jnum n => pyIntStr n
  | .jbool b => if b then "True" else "False"
  | .jnull => "None"

/-- Python whitespace (`str.strip` default set, ASCII part). -/
def pyIsSpace (c : Char) : Bool :=
  c == ' ' || c == '\t' || c == '\n' || c == '\r' || c == Char.ofNat 11 || c == Char.ofNat 12

/-- Python `s.strip()`. -/
def pyStrip (l : List Char) : List Char :=
  ((l.dropWhile pyIsSpace).reverse.dropWhile pyIsSpace).reverse

/-- The numeric value of a non-empty all-digit character run, else `none`. -/
def digitsToNat (ds : List Char) : Option Nat :=
  if ds ≠ [] ∧ ds.all Char.isDigit then
    some (ds.foldl (fun a c => 10 * a + (c.toNat - 48)) 0)
  else none

/-- Python `int(s)` on a string (ASCII model): strip surrounding
whitespace, allow one sign, then a non-empty run of digits. -/
def parseIntPy (s : String) : Option Int :=
  match pyStrip s.data with
  | '-' :: ds => (digitsToNat ds).map (fun n => -(n : Int))
  | '+' :: ds => (digitsToNat ds).map (fun n => (n : Int))
  | ds => (digitsToNat ds).map (fun n => (n : Int))

/-- Python `int(v)`: `none` means the call raises (caught by the bare
`except:` in the dropdown branch). -/
def pyInt : JVal → Option Int
  | .jstr s => parseIntPy s
  | .jnum n => some n
  | .jbool b => some (if b then 1 else 0)
  | .jnull => none

/-- One form field, as the dict built by `get_form_fields`: every key is
present, but its value may be `None` (hence the `Option`s). -/
structure Field where
  ref : Option String
  title : Option String
  ftype : Option String
  options : List (Option String)
  deriving DecidableEq, Repr

/-- The answers dict produced by `map_row_to_typeform`: JSON object keys
to scalar values. -/
abbrev AnswerMap := List (String × JVal)

/-- Python `answers.get(k)`: `None` when the key is absent (and when the
stored value is null, which `dict.get` cannot distinguish downstream). -/
def dictGet (m : AnswerMap) : Option String → JVal
  | none => .jnull
  | some s => ((m.lookup s).getD .jnull)

/-- Line 154: `answers.get(field.get("title")) or answers.get(q_ref)` —
Python `or` keeps the first operand when truthy, else yields the second. -/
def resolveAnswer (m : AnswerMap) (f : Field) : JVal :=
  let a := dictGet m f.title
  if truthy a then a else dictGet m f.ref

/-- The free-text field types of line 161. -/
def freeTextTypes : List String :=
  ["short_text", "email", "number", "website", "text", "long_text"]

/-- The multiple-choice-like field types of line 168. -/
def choiceTypes : List String := ["multiple_choice", "picture_choice", "checkboxes"]

/-- Line 163: `str(provided_answer) if provided_answer else "N/A"`. -/
def freeTextAnswer (v : JVal) : String := if truthy v then pyStr v else "N/A"

/-- Python `s.split(",")`: the empty string yields `[""]`, adjacent
separators yield empty tokens. -/
def splitComma : List Char → List (List Char)
  | [] => [[]]
  | c :: cs =>
    if c = ',' then [] :: splitComma cs
    else
      match splitComma cs with
      | t :: ts => (c :: t) :: ts
      | [] => [[c]]

/-- Lines 174-176: lowercase the token; all-digit tokens become
`chr(int(key) + ord('a'))`, other tokens are used as raw keys. -/
def keyOfToken (tok : List Char) : String :=
  let k := tok.map Char.toLower
  match digitsToNat k with
  | some n => ⟨[Char.ofNat (97 + n)]⟩
  | none => ⟨k⟩

/-- Line 172: `str(provided_answer).replace(" ", "").split(",")`
(replacing every space with nothing removes all spaces), then each token
is turned into the key that gets pressed. -/
def mcKeys (v : JVal) : List String :=
  (splitComma ((pyStr v).data.filter (fun c => c ≠ ' '))).map keyOfToken

/-- Lines 188-192: `int(provided_answer)`, defaulting to 1 when it raises. -/
def dropdownIndex (v : JVal) : Int :=
  match pyInt v with
  | some i => i
  | none => 1

/-- Number of `ArrowDown` presses: `for _ in range(index)` — empty for a
non-positive index. -/
def dropdownPressCount (v : JVal) : Nat := (dropdownIndex v).toNat

/-! ## The effectful driver

Each external browser / network call is one failable step; `Env.fails`
says, per call index, whether that call raises at the Python level.
The trace records every call the driver attempts (the attempt is recorded
even when the call then raises, since the invocation did happen). -/

/-- One attempted external call (or a logged milestone) of the driver. -/
inductive Ev where
  | launch
  | newPage
  | goto (url : String)
  | waitLoad
  | btnCount
  | btnClick
  | btnHandle
  | btnJsClick
  | press (k : String)
  | typeText (s : String)
  | visit (i : Nat) (ref : Option String)
  | errLog (ref : Option String)
  | httpGet (u : String)
  | statusCheck
  | tmpCreate (path : String)
  | setFiles (path : String)
  | waitSelector (sel : String)
  | close
  deriving DecidableEq, Repr

/-- The environment: which call (by index) raises, and the data returned by
the two value-producing browser queries in the start-button block. -/
structure Env where
  fails : Nat → Bool
  startBtnCount : Nat
  startBtnHandle : Bool

/-- Driver state: next call index and the trace of attempted calls. -/
structure St where
  k : Nat
  tr : List Ev
  deriving DecidableEq, Repr

/-- Outcome of a computation: normal value or a propagating exception. -/
inductive Out (α : Type) where
  | ok (a : α)
  | exn
  deriving DecidableEq, Repr

/-- The driver monad: state plus exception, keeping the state (hence the
trace) even when an exception propagates. -/
def M (α : Type) := St → St × Out α

instance : Monad M where
  pure a := fun s => (s, .ok a)
  bind m f := fun s =>
    match m s with
    | (s', .ok a) => f a s'
    | (s', .exn) => (s', .exn)

/-- Attempt one failable external call: record it, bump the call index,
raise iff the environment says this call fails. -/
def att (env : Env) (e : Ev) : M Unit := fun s =>
  (⟨s.k + 1, s.tr ++ [e]⟩, if env.fails s.k then .exn else .ok ())

/-- Model of `start_btn.count()` (line 126): failable, returns the match count. -/
def attBtnCount (env : Env) : M Nat := fun s =>
  (⟨s.k + 1, s.tr ++ [.btnCount]⟩, if env.fails s.k then .exn else .ok env.startBtnCount)

/-- Model of `start_btn.first.element_handle()` (line 133): failable, returns
whether a (non-null) handle was obtained. -/
def attBtnHandle (env : Env) : M Bool := fun s =>
  (⟨s.k + 1, s.tr ++ [.btnHandle]⟩, if env.fails s.k then .exn else .ok env.startBtnHandle)

/-- Record a non-failable milestone (a `print`). -/
def note (e : Ev) : M Unit := fun s => (⟨s.k, s.tr ++ [e]⟩, .ok ())

/-- An exception raised deterministically by the Python semantics
(e.g. `AttributeError` on `int.startswith`). -/
def raiseM {α : Type} : M α := fun s => (s, .exn)

/-- Python `try: m except Exception: h`. -/
def tryAll {α : Type} (m h : M α) : M α := fun s =>
  match m s with
  | (s', .exn) => h s'
  | r => r

/-- Model of `NamedTemporaryFile(delete=False)` + `write` + `close` (lines 205-208):
yields a fresh local path, distinct from the configured placeholder. -/
def tmpPath (n : Nat) : String := "tmpfile" ++ (⟨natDigs n⟩ : String)

/-- Create the temporary file, returning its path. -/
def mkTemp : M String := fun s =>
  (⟨s.k, s.tr ++ [.tmpCreate (tmpPath s.k)]⟩, .ok (tmpPath s.k))

/-- Model of `PITCH_DECK_PATH` (line 21): the configured placeholder file, modelled
by its fixed file name. -/
def PITCH_DECK_PATH : String := "placeholder_deck.pdf"

/-- Model of `safe_press_enter` (lines 142-147): press Enter, swallowing any error. -/
def safePressEnter (env : Env) : M Unit :=
  tryAll (att env (.press "Enter")) (pure ())

/-- The start-button block (lines 124-140): probe for a Start button,
click it, fall back to a script-level click, swallowing every error. -/
def startBlock (env : Env) : M Unit :=
  tryAll
    (do
      let c ← attBtnCount env
      if c > 0 then
        tryAll (att env .btnClick)
          (tryAll
            (do
              let h ← attBtnHandle env
              if h then att env .btnJsClick else pure ())
            (pure ()))
      else pure ())
    (pure ())

/-- Press each key of the list in turn (lines 172-178). -/
def pressKeys (env : Env) : List String → M Unit
  | [] => pure ()
  | k :: ks => do
      att env (.press k)
      pressKeys env ks

/-- Press `ArrowDown` `n` times (lines 193-195). -/
def pressArrowDown (env : Env) : Nat → M Unit
  | 0 => pure ()
  | n + 1 => do
      att env (.press "ArrowDown")
      pressArrowDown env n

/-- What the `file_upload` branch condition
`provided_answer and provided_answer.startswith("http")` (line 202) does:
short-circuit on falsy, raise `AttributeError` on a truthy non-string. -/
inductive UploadPlan where
  | raises
  | fromUrl (u : String)
  | placeholder
  deriving DecidableEq, Repr

/-- Classify the resolved answer for the `file_upload` branch. -/
def uploadPlan : JVal → UploadPlan
  | .jstr s => if s ≠ "" ∧ List.isPrefixOf "http".data s.data then .fromUrl s else .placeholder
  | .jnum n => if n ≠ 0 then .raises else .placeholder
  | .jbool b => if b then .raises else .placeholder
  | .jnull => .placeholder

/-- The actions of the `file_upload` branch once the `startswith`
condition has been evaluated. -/
def uploadActs (env : Env) : UploadPlan → M Unit
  | .raises => raiseM
  | .fromUrl u => do
      att env (.httpGet u)
      att env .statusCheck
      let p ← mkTemp
      att env (.setFiles p)
      safePressEnter env
  | .placeholder => do
      att env (.setFiles PITCH_DECK_PATH)
      safePressEnter env

/-- The `file_upload` branch (lines 199-214). -/
def fileUploadBranch (env : Env) (v : JVal) : M Unit :=
  uploadActs env (uploadPlan v)

/-- The body of the per-field `try` (lines 160-219), dispatching on the
field type (`field.get("type", "")`; a `None` type matches no branch, like
the empty string). -/
def handleCore (env : Env) (f : Field) (v : JVal) : M Unit :=
  if f.ftype.getD "" ∈ freeTextTypes then do
    att env (.typeText (freeTextAnswer v))
    safePressEnter env
  else if f.ftype.getD "" ∈ choiceTypes then do
    (if v ≠ .jnull then pressKeys env (mcKeys v) else pure ())
    safePressEnter env
  else if f.ftype.getD "" = "dropdown" then do
    att env (.press "Tab")
    safePressEnter env
    (if truthy v then pressArrowDown env (dropdownPressCount v) else pure ())
    safePressEnter env
  else if f.ftype.getD "" = "file_upload" then
    fileUploadBranch env v
  else
    safePressEnter env

/-- One iteration of the field loop (lines 149-224): resolve the answer,
log the visit, run the per-type interaction; on any exception log the
field's ref and still attempt one advance. -/
def fieldStep (env : Env) (answers : AnswerMap) (i : Nat) (f : Field) : M Unit := do
  let v := resolveAnswer answers f
  note (.visit i f.ref)
  tryAll (handleCore env f v) (do
    note (.errLog f.ref)
    safePressEnter env)

/-- The field loop itself. -/
def runFields (env : Env) (answers : AnswerMap) : Nat → List Field → M Unit
  | _, [] => pure ()
  | i, f :: fs => do
      fieldStep env answers i f
      runFields env answers (i + 1) fs

/-- Final submission (lines 227-236): Control+Enter then look for the
"Thank you" acknowledgment, all errors swallowed (absence is a warning). -/
def finalSubmit (env : Env) : M Unit :=
  tryAll
    (do
      att env (.press "Control+Enter")
      tryAll (att env (.waitSelector "text=Thank you")) (pure ()))
    (pure ())

/-- Lines 117-121: launch the browser, open a page, navigate, wait for
the load — none of it protected by a `try`. -/
def navOpen (env : Env) (url : String) : M Unit := do
  att env .launch
  att env .newPage
  att env (.goto url)
  att env .waitLoad

/-- Model of `fill_and_submit_form` (lines 110-239): launch, open the page, handle
the start button, walk the fields, submit, close the browser. Note that
lines 117-121 and the trailing `browser.close()` are outside any `try`. -/
def fill_and_submit_form (env : Env) (url : String) (fields : List Field)
    (answers : AnswerMap) : M Unit := do
  navOpen env url
  startBlock env
  runFields env answers 0 fields
  finalSubmit env
  att env .close

/-- Run the driver from the empty initial state. -/
def runFill (env : Env) (url : String) (fields : List Field)
    (answers : AnswerMap) : St × Out Unit :=
  fill_and_submit_form env url fields answers ⟨0, []⟩

/-- An environment in which no external call fails. -/
def noFail : Env := ⟨fun _ => false, 0, false⟩

/-! ## Schema fetching and the main loop -/

/-- One raw field entry of the Typeform API response: the values `.get`
pulls out of it in lines 52-61. -/
structure RawField where
  ref : Option String
  title : Option String
  ftype : Option String
  choices : List (Option String)
  deriving DecidableEq, Repr

/-- A successfully parsed API response: its `fields` array. -/
structure FormData where
  fields : List RawField
  deriving DecidableEq, Repr

/-- Lines 53-61: build the field dict; choice labels are kept only for
`multiple_choice` and `picture_choice` types. -/
def mkField (f : RawField) : Field :=
  { ref := f.ref, title := f.title, ftype := f.ftype,
    options :=
      if f.ftype = some "multiple_choice" ∨ f.ftype = some "picture_choice"
      then f.choices else [] }

/-- Model of `get_form_fields` (lines 43-67): the whole request/parse is one
`try`; its outcome is the `Except` argument (`error msg` = some exception
with message `msg` was raised by the HTTP request or response parsing).
The `except` clause logs and returns the empty list. -/
def get_form_fields (fetch : Except String FormData) : List Field :=
  match fetch with
  | .error _ => []
  | .ok d => d.fields.map mkField

/-- Model of `map_row_to_typeform` (lines 69-108): the completion reply's content
either parses as a JSON object (`some`) or `json.loads` raises (`none`),
and that exception propagates out of the function. -/
def map_row_to_typeform (reply : Option AnswerMap) : Except String AnswerMap :=
  match reply with
  | some m => .ok m
  | none => .error "JSONDecodeError"

/-- A Supabase row (contents irrelevant to control flow). -/
abbrev Row := List (String × JVal)

/-- The `__main__` row loop (lines 250-254), with no exception handler
around the body: returns the indices of the rows for which
`fill_and_submit_form` was invoked, and whether the run aborted with a
propagating exception. `replies i` is row `i`'s completion-reply parse
outcome; `fillRaises i` says whether row `i`'s fill attempt raised. -/
def mainLoop (replies : Nat → Option AnswerMap) (fillRaises : Nat → Bool) :
    List Row → Nat → List Nat × Bool
  | [], _ => ([], false)
  | _ :: rs, i =>
    match map_row_to_typeform (replies i) with
    | .error _ => ([], true)
    | .ok _ =>
      if fillRaises i then ([i], true)
      else
        let r := mainLoop replies fillRaises rs (i + 1)
        (i :: r.1, r.2)

/-! ## Trace observations -/

/-- The visit marker carried by a trace event, if any. -/
def visitOf : Ev → Option (Nat × Option String)
  | .visit i r => some (i, r)
  | _ => none

/-- The ordered visit log of a trace: one entry per field the loop
reached (line 156's per-field print). -/
def visits (tr : List Ev) : List (Nat × Option String) := tr.filterMap visitOf

/-- Predicate: `P` only appends to the trace, and the appended events contain no
visit marker. -/
def AddsNoVisit {α : Type} (P : M α) : Prop :=
  ∀ s, ∃ t, ((P s).1).tr = s.tr ++ t ∧ visits t = []

/-! ## Basic lemmas about the driver monad -/

theorem pure_app {α : Type} (a : α) (s : St) : (pure a : M α) s = (s, .ok a) := rfl

theorem bind_app_ok {α β : Type} {m : M α} {f : α → M β} {s s' : St} {a : α}
    (h : m s = (s', .ok a)) : (m >>= f) s = f a s' := by
  show (match m s with | (s', Out.ok a) => f a s' | (s', Out.exn) => (s', Out.exn)) = _
  rw [h]

theorem bind_app_exn {α β : Type} {m : M α} {f : α → M β} {s s' : St}
    (h : m s = (s', .exn)) : (m >>= f) s = (s', .exn) := by
  show (match m s with | (s', Out.ok a) => f a s' | (s', Out.exn) => (s', Out.exn)) = _
  rw [h]

theorem tryAll_app_ok {α : Type} {m h' : M α} {s s' : St} {a : α}
    (h : m s = (s', .ok a)) : tryAll m h' s = (s', .ok a) := by
  unfold tryAll
  rw [h]

theorem tryAll_app_exn {α : Type} {m h' : M α} {s s' : St}
    (h : m s = (s', .exn)) : tryAll m h' s = h' s' := by
  unfold tryAll
  rw [h]

theorem att_app (env : Env) (e : Ev) (s : St) :
    att env e s = (⟨s.k + 1, s.tr ++ [e]⟩, if env.fails s.k then .exn else .ok ()) := rfl

theorem att_app_ok {env : Env} (e : Ev) {s : St} (h : env.fails s.k = false) :
    att env e s = (⟨s.k + 1, s.tr ++ [e]⟩, .ok ()) := by
  rw [att_app, h]
  rfl

theorem note_app (e : Ev) (s : St) : note e s = (⟨s.k, s.tr ++ [e]⟩, .ok ()) := rfl

/-- The model of `safe_press_enter` always returns normally and always records exactly
one Enter-press attempt (the inner exception is swallowed after the press
was attempted). -/
theorem safePressEnter_app (env : Env) (s : St) :
    safePressEnter env s = (⟨s.k + 1, s.tr ++ [.press "Enter"]⟩, .ok ()) := by
  unfold safePressEnter
  rcases h : env.fails s.k with _ | _
  · exact tryAll_app_ok (att_app_ok _ h)
  · have hatt : att env (.press "Enter") s = (⟨s.k + 1, s.tr ++ [.press "Enter"]⟩, Out.exn) := by
      rw [att_app, h]
      rfl
    rw [tryAll_app_exn hatt]
    rfl

/-- In a fault-free environment, an attempted call followed by a
continuation just records the call and moves on. -/
theorem bind_att_ok {env : Env} (hf : ∀ n, env.fails n = false) (e : Ev)
    {β : Type} (g : Unit → M β) (s : St) :
    (att env e >>= g) s = g () ⟨s.k + 1, s.tr ++ [e]⟩ :=
  bind_app_ok (att_app_ok _ (hf s.k))

/-- Creating the temporary file records its (counter-derived) path and
hands it to the continuation. -/
theorem bind_mkTemp {β : Type} (g : String → M β) (s : St) :
    (mkTemp >>= g) s = g (tmpPath s.k) ⟨s.k, s.tr ++ [.tmpCreate (tmpPath s.k)]⟩ :=
  bind_app_ok rfl

/-! ## Non-emptiness of the typed string -/

theorem natDigsAux_acc_ne_nil (fuel n : Nat) (acc : List Char) (hacc : acc ≠ []) :
    natDigsAux fuel n acc ≠ [] := by
  induction fuel generalizing n acc with
  | zero => exact hacc
  | succ fuel ih =>
    unfold natDigsAux
    split
    · simp
    · exact ih (n / 10) _ (by simp)

theorem natDigs_ne_nil (n : Nat) : natDigs n ≠ [] := by
  unfold natDigs natDigsAux
  split
  · simp
  · exact natDigsAux_acc_ne_nil _ _ _ (by simp)

theorem pyIntStr_ne_empty (n : Int) : pyIntStr n ≠ "" := by
  unfold pyIntStr
  split <;>
  · intro h
    have hd := congrArg String.data h
    simp only [String.data] at hd
    first
      | exact absurd hd (by simp)
      | exact natDigs_ne_nil _ hd

/-- A truthy scalar stringifies to a non-empty string. -/
theorem pyStr_truthy_ne_empty {v : JVal} (h : truthy v = true) : pyStr v ≠ "" := by
  cases v with
  | jstr s =>
    simp only [truthy, ne_eq, decide_eq_true_eq] at h
    simpa [pyStr] using h
  | jnum n => exact pyIntStr_ne_empty n
  | jbool b =>
    cases b with
    | false => simp [truthy] at h
    | true => simp [pyStr]
  | jnull => simp [truthy] at h

/-- The string typed into a free-text field is never empty. -/
theorem freeTextAnswer_ne_empty (v : JVal) : freeTextAnswer v ≠ "" := by
  unfold freeTextAnswer
  split
  · exact pyStr_truthy_ne_empty (by assumption)
  · simp

/-! ## Characterisation of the per-field branches in a fault-free run -/

theorem handleCore_freeText_app {env : Env} (hf : ∀ n, env.fails n = false)
    (f : Field) {t : String} (ht : f.ftype = some t)
    (hmem : t ∈ freeTextTypes) (v : JVal) (s : St) :
    handleCore env f v s =
      (⟨s.k + 2, s.tr ++ [.typeText (freeTextAnswer v), .press "Enter"]⟩, .ok ()) := by
  unfold handleCore
  rw [ht]
  simp only [Option.getD_some]
  rw [if_pos hmem]
  rw [bind_app_ok (att_app_ok _ (hf s.k))]
  rw [safePressEnter_app]
  simp

/-- When the per-field body finishes normally, this is the whole field
step (pre-pended by the visit log). -/
theorem fieldStep_of_core_ok {env : Env} {answers : AnswerMap} {i : Nat} {f : Field}
    {s s' : St}
    (h : handleCore env f (resolveAnswer answers f) ⟨s.k, s.tr ++ [.visit i f.ref]⟩ =
      (s', .ok ())) :
    fieldStep env answers i f s = (s', .ok ()) := by
  unfold fieldStep
  rw [bind_app_ok (note_app _ _)]
  exact tryAll_app_ok h

/-- When the per-field body raises, the handler logs the ref and attempts
one advance, and the step returns normally. -/
theorem fieldStep_of_core_exn {env : Env} {answers : AnswerMap} {i : Nat} {f : Field}
    {s s' : St}
    (h : handleCore env f (resolveAnswer answers f) ⟨s.k, s.tr ++ [.visit i f.ref]⟩ =
      (s', .exn)) :
    fieldStep env answers i f s =
      (⟨s'.k + 1, s'.tr ++ [.errLog f.ref, .press "Enter"]⟩, .ok ()) := by
  unfold fieldStep
  rw [bind_app_ok (note_app _ _), tryAll_app_exn h]
  rw [bind_app_ok (note_app _ _), safePressEnter_app]
  simp

theorem pressKeys_app {env : Env} (hf : ∀ n, env.fails n = false)
    (ks : List String) (s : St) :
    pressKeys env ks s = (⟨s.k + ks.length, s.tr ++ ks.map Ev.press⟩, .ok ()) := by
  induction ks generalizing s with
  | nil => simp [pressKeys, pure_app]
  | cons k ks ih =>
    unfold pressKeys
    rw [bind_app_ok (att_app_ok _ (hf s.k))]
    rw [ih]
    simp [St.mk.injEq]
    omega

theorem pressArrowDown_app {env : Env} (hf : ∀ n, env.fails n = false)
    (n : Nat) (s : St) :
    pressArrowDown env n s =
      (⟨s.k + n, s.tr ++ List.replicate n (.press "ArrowDown")⟩, .ok ()) := by
  induction n generalizing s with
  | zero => simp [pressArrowDown, pure_app]
  | succ n ih =>
    unfold pressArrowDown
    rw [bind_app_ok (att_app_ok _ (hf s.k))]
    rw [ih]
    simp [St.mk.injEq, List.replicate_succ]
    omega

/-- A multiple-choice-like type is not free-text. -/
theorem choice_not_freeText {t : String} (h : t ∈ choiceTypes) : t ∉ freeTextTypes := by
  simp only [choiceTypes, List.mem_cons, List.not_mem_nil, or_false] at h
  rcases h with h | h | h <;> subst h <;> decide

theorem handleCore_choice_app {env : Env} (hf : ∀ n, env.fails n = false)
    (f : Field) {t : String} (ht : f.ftype = some t)
    (hmem : t ∈ choiceTypes) {v : JVal} (hv : v ≠ .jnull) (s : St) :
    handleCore env f v s =
      (⟨s.k + (mcKeys v).length + 1,
        s.tr ++ (mcKeys v).map Ev.press ++ [.press "Enter"]⟩, .ok ()) := by
  unfold handleCore
  rw [ht]
  simp only [Option.getD_some]
  rw [if_neg (choice_not_freeText hmem), if_pos hmem, if_pos hv]
  rw [bind_app_ok (pressKeys_app hf _ _)]
  rw [safePressEnter_app]

/-- A dropdown type is neither free-text nor multiple-choice-like. -/
theorem dropdown_not_other :
    "dropdown" ∉ freeTextTypes ∧ "dropdown" ∉ choiceTypes := by decide

theorem handleCore_dropdown_app {env : Env} (hf : ∀ n, env.fails n = false)
    (f : Field) (ht : f.ftype = some "dropdown") {v : JVal}
    (hv : truthy v = true) (s : St) :
    handleCore env f v s =
      (⟨s.k + dropdownPressCount v + 3,
        s.tr ++ [.press "Tab", .press "Enter"]
          ++ List.replicate (dropdownPressCount v) (.press "ArrowDown")
          ++ [.press "Enter"]⟩, .ok ()) := by
  unfold handleCore
  rw [ht]
  simp only [Option.getD_some]
  rw [if_neg dropdown_not_other.1, if_neg dropdown_not_other.2]
  simp only [if_true]
  rw [bind_app_ok (att_app_ok _ (hf s.k))]
  rw [bind_app_ok (safePressEnter_app _ _)]
  rw [if_pos hv]
  rw [bind_app_ok (pressArrowDown_app hf _ _)]
  rw [safePressEnter_app]
  simp [St.mk.injEq]
  omega

/-! ## C1 -/

/-- **C1**: for every field whose type is in the free-text set
(`short_text`, `long_text`, `email`, `number`, `website`, `text`), in a
fault-free run the driver performs exactly one keyboard `type` action with
a non-empty string — the stringified answer when a (truthy) answer
resolves, the literal `"N/A"` otherwise — followed by exactly one advance
(Enter press), and nothing else. -/
theorem C1_free_text_one_type_then_one_advance
    (env : Env) (hf : ∀ n, env.fails n = false) (answers : AnswerMap)
    (i : Nat) (f : Field) (t : String) (ht : f.ftype = some t)
    (hmem : t ∈ freeTextTypes) (s : St) :
    fieldStep env answers i f s =
      (⟨s.k + 2, s.tr ++ [.visit i f.ref,
        .typeText (freeTextAnswer (resolveAnswer answers f)), .press "Enter"]⟩, .ok ())
    ∧ freeTextAnswer (resolveAnswer answers f) ≠ "" := by
  refine ⟨?_, freeTextAnswer_ne_empty _⟩
  have hc := handleCore_freeText_app hf f ht hmem (resolveAnswer answers f)
    ⟨s.k, s.tr ++ [.visit i f.ref]⟩
  rw [fieldStep_of_core_ok hc]
  simp

/-- **C1 witness**: a `short_text` field with answer `"a@b.com"` gets that
string typed then one Enter; with no answer resolving, `"N/A"` is typed. -/
theorem C1_witness :
    fieldStep noFail [("Email", .jstr "a@b.com")] 0
        ⟨some "r0", some "Email", some "short_text", []⟩ ⟨0, []⟩ =
      (⟨2, [.visit 0 (some "r0"), .typeText "a@b.com", .press "Enter"]⟩, .ok ()) := by
  have h := C1_free_text_one_type_then_one_advance noFail (fun _ => rfl)
    [("Email", .jstr "a@b.com")] 0 ⟨some "r0", some "Email", some "short_text", []⟩
    "short_text" rfl (by decide) ⟨0, []⟩
  rw [h.1]
  rfl

/-! ## C2 -/

/-- **C2**: for every field whose type is `multiple_choice`,
`picture_choice` or `checkboxes`, given a non-null resolved answer, a
fault-free run presses exactly one key per token of the comma-split,
space-stripped, lowercased answer string, in token order — each all-digit
token `n` becoming the letter `chr(ord('a') + n)` — and then advances
once; in particular the tokens of answer `"0,2"` give keys `"a"` then
`"c"`. -/
theorem C2_choice_presses_one_key_per_token
    (env : Env) (hf : ∀ n, env.fails n = false) (answers : AnswerMap)
    (i : Nat) (f : Field) (t : String) (ht : f.ftype = some t)
    (hmem : t ∈ choiceTypes) (s : St)
    (hv : resolveAnswer answers f ≠ .jnull) :
    fieldStep env answers i f s =
      (⟨s.k + (mcKeys (resolveAnswer answers f)).length + 1,
        (s.tr ++ [.visit i f.ref]) ++ (mcKeys (resolveAnswer answers f)).map Ev.press
          ++ [.press "Enter"]⟩, .ok ())
    ∧ mcKeys (.jstr "0,2") = ["a", "c"] := by
  refine ⟨?_, by decide⟩
  have hc := handleCore_choice_app hf f ht hmem hv ⟨s.k, s.tr ++ [.visit i f.ref]⟩
  rw [fieldStep_of_core_ok hc]

/-- **C2 witness**: a `multiple_choice` field with answer `"0,2"` presses
`"a"` then `"c"`, in that order, then advances once. -/
theorem C2_witness :
    fieldStep noFail [("Interest", .jstr "0,2")] 0
        ⟨some "r1", some "Interest", some "multiple_choice", []⟩ ⟨0, []⟩ =
      (⟨3, [.visit 0 (some "r1"), .press "a", .press "c", .press "Enter"]⟩, .ok ()) := by
  have h := C2_choice_presses_one_key_per_token noFail (fun _ => rfl)
    [("Interest", .jstr "0,2")] 0 ⟨some "r1", some "Interest", some "multiple_choice", []⟩
    "multiple_choice" rfl (by decide) ⟨0, []⟩ (by decide)
  rw [h.1]
  rfl

/-! ## C3 -/

/-- **C3 counterexample**: for a dropdown field the claim says the driver
performs exactly `k` ArrowDown presses where `k` is the answer parsed as
an integer (or `k = 1` when it does not parse). The present answer `"-2"`
parses (Python `int("-2") = -2`), yet the driver performs `0` ArrowDown
presses — and `0 ≠ -2` and `0 ≠ 1`, so the claim fails on either reading
of "parses". -/
theorem C3_counterexample :
    parseIntPy "-2" = some (-2)
    ∧ truthy (.jstr "-2") = true
    ∧ (fieldStep noFail [("T", .jstr "-2")] 0
        ⟨some "r", some "T", some "dropdown", []⟩ ⟨0, []⟩).1.tr
        = [.visit 0 (some "r"), .press "Tab", .press "Enter", .press "Enter"]
    ∧ List.count (Ev.press "ArrowDown")
        [Ev.visit 0 (some "r"), .press "Tab", .press "Enter", .press "Enter"] = 0
    ∧ ((0 : Int) = -2 → False) ∧ ((0 : Nat) = 1 → False) := by
  refine ⟨by decide, by decide, by decide, by decide, by decide, by decide⟩

/-- **C3 (amended)**: for every dropdown field with a present (truthy)
answer, a fault-free run performs exactly `toNat k = max k 0` ArrowDown
presses between the opening of the control and the final advance, where
`k` is the answer parsed as a (one-based) integer, or `1` when parsing
raises; this equals `k` itself whenever `k ≥ 0` — in particular `3`
presses for answer `"3"` — while a negative parse yields no presses. -/
theorem C3_dropdown_presses_clamped_index
    (env : Env) (hf : ∀ n, env.fails n = false) (answers : AnswerMap)
    (i : Nat) (f : Field) (ht : f.ftype = some "dropdown") (s : St)
    (hv : truthy (resolveAnswer answers f) = true) :
    fieldStep env answers i f s =
      (⟨s.k + dropdownPressCount (resolveAnswer answers f) + 3,
        (s.tr ++ [.visit i f.ref]) ++ [.press "Tab", .press "Enter"]
          ++ List.replicate (dropdownPressCount (resolveAnswer answers f))
              (.press "ArrowDown")
          ++ [.press "Enter"]⟩, .ok ())
    ∧ dropdownPressCount (resolveAnswer answers f)
        = (max (dropdownIndex (resolveAnswer answers f)) 0).toNat
    ∧ (0 ≤ dropdownIndex (resolveAnswer answers f) →
        (dropdownPressCount (resolveAnswer answers f) : Int)
          = dropdownIndex (resolveAnswer answers f)) := by
  refine ⟨?_, ?_, ?_⟩
  · have hc := handleCore_dropdown_app hf f ht hv ⟨s.k, s.tr ++ [.visit i f.ref]⟩
    rw [fieldStep_of_core_ok hc]
  · unfold dropdownPressCount
    omega
  · intro h
    unfold dropdownPressCount
    omega

/-- **C3 witness**: a dropdown field with answer `"3"` gets exactly three
ArrowDown presses before the final advance. -/
theorem C3_witness :
    fieldStep noFail [("T", .jstr "3")] 0
        ⟨some "r", some "T", some "dropdown", []⟩ ⟨0, []⟩ =
      (⟨6, [.visit 0 (some "r"), .press "Tab", .press "Enter",
        .press "ArrowDown", .press "ArrowDown", .press "ArrowDown",
        .press "Enter"]⟩, .ok ())
    ∧ (0 : Int) ≤ 3 := by
  have h := C3_dropdown_presses_clamped_index noFail (fun _ => rfl)
    [("T", .jstr "3")] 0 ⟨some "r", some "T", some "dropdown", []⟩ rfl ⟨0, []⟩ (by decide)
  refine ⟨?_, by decide⟩
  rw [h.1]
  rfl

/-! ## C4 -/

/-- **C4**: whatever exception the HTTP request or response parsing inside
`get_form_fields` raises, the function returns the empty field list
instead of propagating it (being a total function, it never raises). -/
theorem C4_get_form_fields_error_returns_empty (msg : String) :
    get_form_fields (.error msg) = [] := rfl

/-! ## C5 -/

/-- **C5**: the driver resolves a field's answer by the title key first,
then the reference-id key, a (null) default otherwise: a truthy
title-keyed value is used, and when the title key is absent (or the title
missing) while the reference-id key is present, that key's value is used. -/
theorem C5_answer_resolution_title_then_ref (m : AnswerMap) (f : Field) :
    (truthy (dictGet m f.title) = true → resolveAnswer m f = dictGet m f.title)
    ∧ (∀ t r v, f.title = some t → m.lookup t = none →
        f.ref = some r → m.lookup r = some v → resolveAnswer m f = v) := by
  constructor
  · intro h
    unfold resolveAnswer
    rw [if_pos h]
  · intro t r v ht hnt hr hv
    simp [resolveAnswer, dictGet, ht, hnt, hr, hv, truthy]

/-- **C5 witness**: with `{"ref1": "from-ref"}` and a field titled
`"Title"` (absent from the map) whose ref is `"ref1"`, the resolved answer
is `"from-ref"`; and a truthy title-keyed value wins when present. -/
theorem C5_witness :
    resolveAnswer [("ref1", .jstr "from-ref")]
      ⟨some "ref1", some "Title", some "short_text", []⟩ = .jstr "from-ref"
    ∧ resolveAnswer [("Title", .jstr "from-title"), ("ref1", .jstr "from-ref")]
      ⟨some "ref1", some "Title", some "short_text", []⟩ = .jstr "from-title" := by
  constructor
  · exact (C5_answer_resolution_title_then_ref [("ref1", .jstr "from-ref")]
      ⟨some "ref1", some "Title", some "short_text", []⟩).2
      "Title" "ref1" (.jstr "from-ref") rfl (by decide) rfl (by decide)
  · exact (C5_answer_resolution_title_then_ref
      [("Title", .jstr "from-title"), ("ref1", .jstr "from-ref")]
      ⟨some "ref1", some "Title", some "short_text", []⟩).1 (by decide)

/-! ## C10 -/

theorem handleCore_choice_null_app {env : Env}
    (f : Field) {t : String} (ht : f.ftype = some t)
    (hmem : t ∈ choiceTypes) (s : St) :
    handleCore env f .jnull s = (⟨s.k + 1, s.tr ++ [.press "Enter"]⟩, .ok ()) := by
  unfold handleCore
  rw [ht]
  simp only [Option.getD_some]
  rw [if_neg (choice_not_freeText hmem), if_pos hmem, if_neg (by simp)]
  rw [bind_app_ok (pure_app _ _)]
  rw [safePressEnter_app]

/-- **C10 counterexample**: the claim says that when both lookups yield
falsy values, a multiple-choice-like field gets no key presses. With the
title key absent and the reference-id key holding the falsy value `0`,
the resolved answer is `0` — falsy but not `None` — and the driver
presses the key `"a"` before advancing. -/
theorem C10_counterexample :
    resolveAnswer [("r", .jnum 0)] ⟨some "r", some "T", some "checkboxes", []⟩ = .jnum 0
    ∧ truthy (.jnum 0) = false
    ∧ (fieldStep noFail [("r", .jnum 0)] 0
        ⟨some "r", some "T", some "checkboxes", []⟩ ⟨0, []⟩).1.tr
        = [.visit 0 (some "r"), .press "a", .press "Enter"]
    ∧ Ev.press "a" ∈ [Ev.visit 0 (some "r"), Ev.press "a", Ev.press "Enter"] := by
  refine ⟨by decide, by decide, by decide, by decide⟩

/-- **C10 (amended)**: answer presence is Python truthiness for the lookup
chain and for free-text fields — a falsy title-keyed value is skipped in
favor of the reference-id key, and a falsy resolved answer makes a
free-text field type `"N/A"` (e.g. the numeric answer `0` is replaced by
`"N/A"`) — but a multiple-choice-like field is treated as unanswered (no
key presses, only an advance) only when the resolved answer is `None`; a
falsy non-null resolved value such as `0` is stringified and still
produces key presses (`0` presses `"a"`). -/
theorem C10_truthiness_resolution_and_null_only_choice_skip
    (env : Env) (hf : ∀ n, env.fails n = false) (m : AnswerMap)
    (i : Nat) (f : Field) (s : St) :
    (truthy (dictGet m f.title) = false → resolveAnswer m f = dictGet m f.ref)
    ∧ (∀ t, f.ftype = some t → t ∈ freeTextTypes →
        truthy (resolveAnswer m f) = false →
        fieldStep env m i f s =
          (⟨s.k + 2, s.tr ++ [.visit i f.ref, .typeText "N/A", .press "Enter"]⟩, .ok ()))
    ∧ (∀ t, f.ftype = some t → t ∈ choiceTypes →
        resolveAnswer m f = .jnull →
        fieldStep env m i f s =
          (⟨s.k + 1, s.tr ++ [.visit i f.ref, .press "Enter"]⟩, .ok ()))
    ∧ mcKeys (.jnum 0) = ["a"] := by
  refine ⟨?_, ?_, ?_, by decide⟩
  · intro h
    unfold resolveAnswer
    rw [if_neg (by simp [h])]
  · intro t ht hmem hv
    have hc := handleCore_freeText_app hf f ht hmem (resolveAnswer m f)
      ⟨s.k, s.tr ++ [.visit i f.ref]⟩
    rw [freeTextAnswer, if_neg (by simp [hv])] at hc
    rw [fieldStep_of_core_ok hc]
    simp
  · intro t ht hmem hv
    have hc := @handleCore_choice_null_app env f t ht hmem ⟨s.k, s.tr ++ [.visit i f.ref]⟩
    rw [← hv] at hc
    rw [fieldStep_of_core_ok hc]
    simp

/-- **C10 witness**: a falsy title value is skipped for the ref key; a
free-text field with resolved answer `0` types `"N/A"`; a choice field
with no resolvable answer only advances. -/
theorem C10_witness :
    resolveAnswer [("T", .jstr ""), ("r", .jstr "x")]
      ⟨some "r", some "T", some "email", []⟩ = .jstr "x"
    ∧ fieldStep noFail [("T", .jnum 0)] 0 ⟨some "r", some "T", some "email", []⟩ ⟨0, []⟩ =
        (⟨2, [.visit 0 (some "r"), .typeText "N/A", .press "Enter"]⟩, .ok ())
    ∧ fieldStep noFail [] 0 ⟨some "r", some "T", some "picture_choice", []⟩ ⟨0, []⟩ =
        (⟨1, [.visit 0 (some "r"), .press "Enter"]⟩, .ok ()) := by
  refine ⟨?_, ?_, ?_⟩
  · have h := (C10_truthiness_resolution_and_null_only_choice_skip noFail (fun _ => rfl)
      [("T", .jstr ""), ("r", .jstr "x")] 0 ⟨some "r", some "T", some "email", []⟩
      ⟨0, []⟩).1 (by decide)
    rw [h]
    rfl
  · have h := (C10_truthiness_resolution_and_null_only_choice_skip noFail (fun _ => rfl)
      [("T", .jnum 0)] 0 ⟨some "r", some "T", some "email", []⟩ ⟨0, []⟩).2.1
      "email" rfl (by decide) (by decide)
    rw [h]
    rfl
  · have h := (C10_truthiness_resolution_and_null_only_choice_skip noFail (fun _ => rfl)
      [] 0 ⟨some "r", some "T", some "picture_choice", []⟩ ⟨0, []⟩).2.2.1
      "picture_choice" rfl (by decide) (by decide)
    rw [h]
    rfl

/-! ## C6 -/

/-- A `file_upload` type matches no earlier branch. -/
theorem upload_not_other :
    "file_upload" ∉ freeTextTypes ∧ "file_upload" ∉ choiceTypes
      ∧ ("file_upload" = "dropdown" → False) := by decide

/-- The `file_upload` branch of `handleCore`, selected. -/
theorem handleCore_upload_eq {env : Env} (f : Field)
    (ht : f.ftype = some "file_upload") (v : JVal) :
    handleCore env f v = fileUploadBranch env v := by
  funext s
  unfold handleCore
  rw [ht]
  simp only [Option.getD_some]
  rw [if_neg upload_not_other.1, if_neg upload_not_other.2.1,
    if_neg upload_not_other.2.2]
  simp only [if_true]

/-- The temporary file's path is never the configured placeholder path. -/
theorem tmpPath_ne_pitch (n : Nat) : tmpPath n ≠ PITCH_DECK_PATH := by
  intro h
  have hd : (tmpPath n).data.head? = some 'p' := by
    rw [h]
    rfl
  rw [tmpPath, String.data_append] at hd
  simp only [String.data] at hd
  rw [List.cons_append] at hd
  simp at hd

/-- **C6 counterexample**: the claim says that whenever the resolved
answer is not an `"http"`-prefixed string, the placeholder file is
attached. With the truthy non-string answer `5`, `provided_answer.startswith`
raises `AttributeError`, the per-field handler catches it, and no file at
all is attached — the trace holds no `setFiles` action. -/
theorem C6_counterexample :
    truthy (.jnum 5) = true
    ∧ uploadPlan (.jnum 5) = .raises
    ∧ (fieldStep noFail [("T", .jnum 5)] 0
        ⟨some "r", some "T", some "file_upload", []⟩ ⟨0, []⟩).1.tr
        = [.visit 0 (some "r"), .errLog (some "r"), .press "Enter"]
    ∧ (Ev.setFiles PITCH_DECK_PATH
        ∈ [Ev.visit 0 (some "r"), Ev.errLog (some "r"), Ev.press "Enter"] → False)
    ∧ ([Ev.visit 0 (some "r"), Ev.errLog (some "r"), Ev.press "Enter"].all
        (fun e => match e with | Ev.setFiles _ => false | _ => true)) = true := by
  refine ⟨by decide, by decide, by decide, by decide, by decide⟩

/-- **C6 (amended)**: for a `file_upload` field in a fault-free run: an
answer that is a truthy string beginning with `"http"` is downloaded into
a newly created temporary file which is attached instead of the
placeholder; an absent/falsy answer or a string not beginning with
`"http"` gets the fixed placeholder attached; but a truthy non-string
answer raises at `.startswith` — the per-field handler catches it and no
file is attached. -/
theorem C6_upload_url_to_temp_else_placeholder_or_raise
    (env : Env) (hf : ∀ n, env.fails n = false) (m : AnswerMap)
    (i : Nat) (f : Field) (ht : f.ftype = some "file_upload") (s : St) :
    (∀ u, uploadPlan (resolveAnswer m f) = .fromUrl u →
      fieldStep env m i f s =
        (⟨s.k + 4, s.tr ++ [.visit i f.ref, .httpGet u, .statusCheck,
          .tmpCreate (tmpPath (s.k + 2)), .setFiles (tmpPath (s.k + 2)),
          .press "Enter"]⟩, .ok ())
      ∧ tmpPath (s.k + 2) ≠ PITCH_DECK_PATH)
    ∧ (uploadPlan (resolveAnswer m f) = .placeholder →
      fieldStep env m i f s =
        (⟨s.k + 2, s.tr ++ [.visit i f.ref, .setFiles PITCH_DECK_PATH,
          .press "Enter"]⟩, .ok ()))
    ∧ (uploadPlan (resolveAnswer m f) = .raises →
      fieldStep env m i f s =
        (⟨s.k + 1, s.tr ++ [.visit i f.ref, .errLog f.ref, .press "Enter"]⟩, .ok ()))
    ∧ (∀ v, uploadPlan v = .raises ↔
        (truthy v = true ∧ ∀ u, v ≠ .jstr u)) := by
  refine ⟨?_, ?_, ?_, ?_⟩
  · intro u hu
    refine ⟨?_, tmpPath_ne_pitch _⟩
    have hc : handleCore env f (resolveAnswer m f) ⟨s.k, s.tr ++ [.visit i f.ref]⟩ =
        (⟨s.k + 4, (s.tr ++ [.visit i f.ref]) ++ [.httpGet u, .statusCheck,
          .tmpCreate (tmpPath (s.k + 2)), .setFiles (tmpPath (s.k + 2)),
          .press "Enter"]⟩, .ok ()) := by
      rw [handleCore_upload_eq f ht]
      unfold fileUploadBranch
      rw [hu]
      simp only [uploadActs]
      rw [bind_att_ok hf, bind_att_ok hf, bind_mkTemp, bind_att_ok hf]
      rw [safePressEnter_app]
      simp
    rw [fieldStep_of_core_ok hc]
    simp
  · intro hu
    have hc : handleCore env f (resolveAnswer m f) ⟨s.k, s.tr ++ [.visit i f.ref]⟩ =
        (⟨s.k + 2, (s.tr ++ [.visit i f.ref]) ++ [.setFiles PITCH_DECK_PATH,
          .press "Enter"]⟩, .ok ()) := by
      rw [handleCore_upload_eq f ht]
      unfold fileUploadBranch
      rw [hu]
      simp only [uploadActs]
      rw [bind_att_ok hf]
      rw [safePressEnter_app]
      simp
    rw [fieldStep_of_core_ok hc]
    simp
  · intro hu
    have hc : handleCore env f (resolveAnswer m f) ⟨s.k, s.tr ++ [.visit i f.ref]⟩ =
        ((⟨s.k, s.tr ++ [.visit i f.ref]⟩ : St), .exn) := by
      rw [handleCore_upload_eq f ht]
      unfold fileUploadBranch
      rw [hu]
      rfl
    rw [fieldStep_of_core_exn hc]
    simp
  · intro v
    cases v with
    | jstr u =>
      simp only [uploadPlan]
      constructor
      · intro h
        split at h <;> simp_all
      · rintro ⟨h1, h2⟩
        exact absurd rfl (h2 u)
    | jnum n =>
      simp only [uploadPlan, truthy]
      constructor
      · intro h
        split at h
        · simp_all
        · simp at h
      · rintro ⟨h1, h2⟩
        rw [if_pos (by simpa using h1)]
    | jbool b =>
      cases b <;> simp [uploadPlan, truthy]
    | jnull => simp [uploadPlan, truthy]

/-- **C6 witness**: an `"http"` answer is fetched and the fresh temporary
file (not the placeholder) is attached; an absent answer gets the
placeholder; the numeric answer `5` raises and attaches nothing. -/
theorem C6_witness :
    fieldStep noFail [("T", .jstr "http://x/y.pdf")] 0
        ⟨some "r", some "T", some "file_upload", []⟩ ⟨0, []⟩ =
      (⟨4, [.visit 0 (some "r"), .httpGet "http://x/y.pdf", .statusCheck,
        .tmpCreate "tmpfile2", .setFiles "tmpfile2", .press "Enter"]⟩, .ok ())
    ∧ ("tmpfile2" : String) ≠ PITCH_DECK_PATH
    ∧ fieldStep noFail [] 0 ⟨some "r", some "T", some "file_upload", []⟩ ⟨0, []⟩ =
      (⟨2, [.visit 0 (some "r"), .setFiles PITCH_DECK_PATH, .press "Enter"]⟩, .ok ()) := by
  have h1 := (C6_upload_url_to_temp_else_placeholder_or_raise noFail (fun _ => rfl)
    [("T", .jstr "http://x/y.pdf")] 0 ⟨some "r", some "T", some "file_upload", []⟩
    rfl ⟨0, []⟩).1 "http://x/y.pdf" (by decide)
  have h2 := (C6_upload_url_to_temp_else_placeholder_or_raise noFail (fun _ => rfl)
    [] 0 ⟨some "r", some "T", some "file_upload", []⟩ rfl ⟨0, []⟩).2.1 (by decide)
  refine ⟨?_, ?_, ?_⟩
  · rw [h1.1]
    rfl
  · intro h
    exact tmpPath_ne_pitch 2 ((by rfl : tmpPath 2 = "tmpfile2") ▸ h)
  · rw [h2]
    rfl

/-! ## C8 -/

/-- **C8 counterexample**: with two rows and a malformed completion reply
for the first, `map_row_to_typeform` raises and the exception propagates
out of the unprotected main loop: no row is submitted at all — in
particular the second row is *not* processed, contradicting "subsequent
rows of the batch are still processed". -/
theorem C8_counterexample :
    map_row_to_typeform ((fun i => if i == 0 then none else some []) 0)
      = .error "JSONDecodeError"
    ∧ mainLoop (fun i => if i == 0 then none else some []) (fun _ => false)
        [[], []] 0 = ([], true)
    ∧ ((1 : Nat) ∈ ([] : List Nat) → False) := by
  refine ⟨rfl, rfl, by simp⟩

/-- **C8 (amended)**: when the completion reply for the current row is not
parseable as JSON, `map_row_to_typeform` raises, and — the loop body
having no exception handler — the raise aborts the whole remaining batch:
neither the current row nor any subsequent row is processed. -/
theorem C8_malformed_reply_aborts_batch
    (replies : Nat → Option AnswerMap) (fillRaises : Nat → Bool)
    (r : Row) (rs : List Row) (i : Nat) (h : replies i = none) :
    map_row_to_typeform (replies i) = .error "JSONDecodeError"
    ∧ mainLoop replies fillRaises (r :: rs) i = ([], true) := by
  constructor
  · rw [h]
    rfl
  · unfold mainLoop
    rw [h]
    rfl

/-- **C8 witness**: two rows whose first reply is malformed — the batch
aborts with nothing processed. -/
theorem C8_witness :
    map_row_to_typeform none = .error "JSONDecodeError"
    ∧ mainLoop (fun _ => none) (fun _ => false) [[], []] 0 = ([], true) :=
  C8_malformed_reply_aborts_batch (fun _ => none) (fun _ => false) [] [[]] 0 rfl

/-! ## Trace growth: the driver only ever appends to the trace, and only
the loop head emits visit markers -/

theorem visits_append (a b : List Ev) : visits (a ++ b) = visits a ++ visits b :=
  List.filterMap_append a b visitOf

theorem addsNoVisit_att (env : Env) (e : Ev) (he : visitOf e = none) :
    AddsNoVisit (att env e) := by
  intro s
  exact ⟨[e], rfl, by simp [visits, he]⟩

theorem addsNoVisit_pure {α : Type} (a : α) : AddsNoVisit (pure a : M α) := by
  intro s
  exact ⟨[], by simp [pure_app], rfl⟩

theorem addsNoVisit_raise {α : Type} : AddsNoVisit (raiseM : M α) := by
  intro s
  exact ⟨[], by simp [raiseM], rfl⟩

theorem addsNoVisit_note (e : Ev) (he : visitOf e = none) : AddsNoVisit (note e) := by
  intro s
  exact ⟨[e], rfl, by simp [visits, he]⟩

theorem addsNoVisit_attBtnCount (env : Env) : AddsNoVisit (attBtnCount env) := by
  intro s
  exact ⟨[.btnCount], rfl, by simp [visits, visitOf]⟩

theorem addsNoVisit_attBtnHandle (env : Env) : AddsNoVisit (attBtnHandle env) := by
  intro s
  exact ⟨[.btnHandle], rfl, by simp [visits, visitOf]⟩

theorem addsNoVisit_mkTemp : AddsNoVisit mkTemp := by
  intro s
  exact ⟨[.tmpCreate (tmpPath s.k)], rfl, by simp [visits, visitOf]⟩

theorem addsNoVisit_bind {α β : Type} {m : M α} {f : α → M β}
    (hm : AddsNoVisit m) (hf : ∀ a, AddsNoVisit (f a)) : AddsNoVisit (m >>= f) := by
  intro s
  obtain ⟨t1, h1, hv1⟩ := hm s
  rcases hms : m s with ⟨s1, o⟩
  rw [hms] at h1
  cases o with
  | ok a =>
    obtain ⟨t2, h2, hv2⟩ := hf a s1
    refine ⟨t1 ++ t2, ?_, ?_⟩
    · rw [bind_app_ok hms, h2, h1, List.append_assoc]
    · rw [visits_append, hv1, hv2]
      rfl
  | exn =>
    refine ⟨t1, ?_, hv1⟩
    rw [bind_app_exn hms]
    exact h1

theorem addsNoVisit_tryAll {α : Type} {m h : M α}
    (hm : AddsNoVisit m) (hh : AddsNoVisit h) : AddsNoVisit (tryAll m h) := by
  intro s
  obtain ⟨t1, h1, hv1⟩ := hm s
  rcases hms : m s with ⟨s1, o⟩
  rw [hms] at h1
  cases o with
  | ok a =>
    refine ⟨t1, ?_, hv1⟩
    rw [tryAll_app_ok hms]
    exact h1
  | exn =>
    obtain ⟨t2, h2, hv2⟩ := hh s1
    refine ⟨t1 ++ t2, ?_, ?_⟩
    · rw [tryAll_app_exn hms, h2, h1, List.append_assoc]
    · rw [visits_append, hv1, hv2]
      rfl

theorem addsNoVisit_ite {α : Type} {c : Prop} [Decidable c] {P Q : M α}
    (hp : AddsNoVisit P) (hq : AddsNoVisit Q) : AddsNoVisit (if c then P else Q) := by
  split
  · exact hp
  · exact hq

theorem addsNoVisit_safePressEnter (env : Env) : AddsNoVisit (safePressEnter env) := by
  intro s
  exact ⟨[.press "Enter"], by rw [safePressEnter_app], by simp [visits, visitOf]⟩

theorem addsNoVisit_pressKeys (env : Env) (ks : List String) :
    AddsNoVisit (pressKeys env ks) := by
  induction ks with
  | nil => exact addsNoVisit_pure ()
  | cons k ks ih =>
    exact addsNoVisit_bind (addsNoVisit_att env _ rfl) (fun _ => ih)

theorem addsNoVisit_pressArrowDown (env : Env) (n : Nat) :
    AddsNoVisit (pressArrowDown env n) := by
  induction n with
  | zero => exact addsNoVisit_pure ()
  | succ n ih =>
    exact addsNoVisit_bind (addsNoVisit_att env _ rfl) (fun _ => ih)

theorem addsNoVisit_uploadActs (env : Env) (p : UploadPlan) :
    AddsNoVisit (uploadActs env p) := by
  cases p with
  | raises => exact addsNoVisit_raise
  | fromUrl u =>
    exact addsNoVisit_bind (addsNoVisit_att env _ rfl) (fun _ =>
      addsNoVisit_bind (addsNoVisit_att env _ rfl) (fun _ =>
        addsNoVisit_bind addsNoVisit_mkTemp (fun p =>
          addsNoVisit_bind (addsNoVisit_att env _ rfl) (fun _ =>
            addsNoVisit_safePressEnter env))))
  | placeholder =>
    exact addsNoVisit_bind (addsNoVisit_att env _ rfl) (fun _ =>
      addsNoVisit_safePressEnter env)

theorem addsNoVisit_handleCore (env : Env) (f : Field) (v : JVal) :
    AddsNoVisit (handleCore env f v) := by
  unfold handleCore
  by_cases h1 : f.ftype.getD "" ∈ freeTextTypes
  · rw [if_pos h1]
    exact addsNoVisit_bind (addsNoVisit_att env _ rfl) (fun _ =>
      addsNoVisit_safePressEnter env)
  · rw [if_neg h1]
    by_cases h2 : f.ftype.getD "" ∈ choiceTypes
    · rw [if_pos h2]
      exact addsNoVisit_bind
        (addsNoVisit_ite (addsNoVisit_pressKeys env _) (addsNoVisit_pure ()))
        (fun _ => addsNoVisit_safePressEnter env)
    · rw [if_neg h2]
      by_cases h3 : f.ftype.getD "" = "dropdown"
      · rw [if_pos h3]
        exact addsNoVisit_bind (addsNoVisit_att env _ rfl) (fun _ =>
          addsNoVisit_bind (addsNoVisit_safePressEnter env) (fun _ =>
            addsNoVisit_bind
              (addsNoVisit_ite (addsNoVisit_pressArrowDown env _) (addsNoVisit_pure ()))
              (fun _ => addsNoVisit_safePressEnter env)))
      · rw [if_neg h3]
        by_cases h4 : f.ftype.getD "" = "file_upload"
        · rw [if_pos h4]
          unfold fileUploadBranch
          exact addsNoVisit_uploadActs env _
        · rw [if_neg h4]
          exact addsNoVisit_safePressEnter env

/-- The start-button block appends no visit marker. -/
theorem addsNoVisit_startBlock (env : Env) : AddsNoVisit (startBlock env) := by
  unfold startBlock
  refine addsNoVisit_tryAll ?_ (addsNoVisit_pure ())
  refine addsNoVisit_bind (addsNoVisit_attBtnCount env) (fun c => ?_)
  refine addsNoVisit_ite ?_ (addsNoVisit_pure ())
  refine addsNoVisit_tryAll (addsNoVisit_att env _ rfl) ?_
  refine addsNoVisit_tryAll ?_ (addsNoVisit_pure ())
  refine addsNoVisit_bind (addsNoVisit_attBtnHandle env) (fun h => ?_)
  exact addsNoVisit_ite (addsNoVisit_att env _ rfl) (addsNoVisit_pure ())

/-- The final submission appends no visit marker. -/
theorem addsNoVisit_finalSubmit (env : Env) : AddsNoVisit (finalSubmit env) := by
  unfold finalSubmit
  refine addsNoVisit_tryAll ?_ (addsNoVisit_pure ())
  exact addsNoVisit_bind (addsNoVisit_att env _ rfl) (fun _ =>
    addsNoVisit_tryAll (addsNoVisit_att env _ rfl) (addsNoVisit_pure ()))

/-! ## The field step and the field loop, under an arbitrary environment -/

/-- A field step never lets an exception propagate. -/
theorem fieldStep_ok (env : Env) (answers : AnswerMap) (i : Nat) (f : Field)
    (s : St) : (fieldStep env answers i f s).2 = .ok () := by
  rcases hc : handleCore env f (resolveAnswer answers f) ⟨s.k, s.tr ++ [.visit i f.ref]⟩
    with ⟨s2, o⟩
  cases o with
  | ok a =>
    rw [fieldStep_of_core_ok hc]
  | exn =>
    rw [fieldStep_of_core_exn hc]

/-- A field step appends its own visit marker and nothing but
visit-marker-free events after it. -/
theorem fieldStep_tr (env : Env) (answers : AnswerMap) (i : Nat) (f : Field)
    (s : St) :
    ∃ t, (fieldStep env answers i f s).1.tr = s.tr ++ [.visit i f.ref] ++ t
      ∧ visits t = [] := by
  rcases hc : handleCore env f (resolveAnswer answers f) ⟨s.k, s.tr ++ [.visit i f.ref]⟩
    with ⟨s2, o⟩
  obtain ⟨t, ht, hv⟩ := addsNoVisit_handleCore env f (resolveAnswer answers f)
    ⟨s.k, s.tr ++ [.visit i f.ref]⟩
  rw [hc] at ht
  cases o with
  | ok a =>
    rw [fieldStep_of_core_ok hc]
    exact ⟨t, ht, hv⟩
  | exn =>
    rw [fieldStep_of_core_exn hc]
    refine ⟨t ++ [.errLog f.ref, .press "Enter"], ?_, ?_⟩
    · show s2.tr ++ [Ev.errLog f.ref, Ev.press "Enter"] = _
      rw [ht, List.append_assoc]
    · rw [visits_append, hv]
      rfl

/-- The field loop never propagates an exception and visits every field
in order, whatever the environment does. -/
theorem runFields_app (env : Env) (answers : AnswerMap) :
    ∀ (fs : List Field) (i : Nat) (s : St),
    (runFields env answers i fs s).2 = .ok ()
    ∧ ∃ t, ((runFields env answers i fs s).1).tr = s.tr ++ t
      ∧ visits t = (List.enumFrom i fs).map (fun p => (p.1, p.2.ref)) := by
  intro fs
  induction fs with
  | nil =>
    intro i s
    exact ⟨rfl, [], by simp [runFields, pure_app], rfl⟩
  | cons f fs ih =>
    intro i s
    rcases hstep : fieldStep env answers i f s with ⟨s1, o⟩
    have hok := fieldStep_ok env answers i f s
    rw [hstep] at hok
    subst hok
    obtain ⟨t1, ht1, hv1⟩ := fieldStep_tr env answers i f s
    rw [hstep] at ht1
    have hbind : runFields env answers i (f :: fs) s
        = runFields env answers (i + 1) fs s1 := by
      show (fieldStep env answers i f >>= fun _ => runFields env answers (i + 1) fs) s = _
      rw [bind_app_ok hstep]
    obtain ⟨hok2, t2, ht2, hv2⟩ := ih (i + 1) s1
    refine ⟨by rw [hbind]; exact hok2, [Ev.visit i f.ref] ++ t1 ++ t2, ?_, ?_⟩
    · rw [hbind, ht2, ht1]
      simp [List.append_assoc]
    · rw [visits_append, visits_append, hv1, hv2]
      simp [visits, visitOf, List.enumFrom]

/-! ## C7 -/

/-- **C7**: whatever the environment does to the browser calls, the field
loop never propagates an exception and every field is visited in order —
a failure on one field never prevents later fields from being visited —
and when a field's per-type interaction raises, the handler logs the
failure with the field's reference id and still attempts one advance
(Enter) past that field, returning normally. -/
theorem C7_field_failure_caught_logged_advanced_loop_continues
    (env : Env) (answers : AnswerMap) (i : Nat) (fs : List Field) (s : St) :
    ((runFields env answers i fs s).2 = .ok ()
      ∧ visits ((runFields env answers i fs s).1.tr)
          = visits s.tr ++ (List.enumFrom i fs).map (fun p => (p.1, p.2.ref)))
    ∧ (∀ f s2, handleCore env f (resolveAnswer answers f)
          ⟨s.k, s.tr ++ [.visit i f.ref]⟩ = (s2, .exn) →
        fieldStep env answers i f s =
          (⟨s2.k + 1, s2.tr ++ [.errLog f.ref, .press "Enter"]⟩, .ok ())) := by
  constructor
  · obtain ⟨hok, t, ht, hv⟩ := runFields_app env answers fs i s
    refine ⟨hok, ?_⟩
    rw [ht, visits_append, hv]
  · intro f s2 hc
    exact fieldStep_of_core_exn hc

/-- **C7 witness**: with every browser call failing, a two-field loop
still returns normally and visits both fields; and the failing
`short_text` interaction is logged with the field's ref and followed by
one advance attempt. -/
theorem C7_witness :
    (runFields ⟨fun _ => true, 0, false⟩ [] 0
        [⟨some "r1", some "A", some "short_text", []⟩,
         ⟨some "r2", some "B", some "multiple_choice", []⟩] ⟨0, []⟩).2 = .ok ()
    ∧ visits ((runFields ⟨fun _ => true, 0, false⟩ [] 0
        [⟨some "r1", some "A", some "short_text", []⟩,
         ⟨some "r2", some "B", some "multiple_choice", []⟩] ⟨0, []⟩).1.tr)
        = [(0, some "r1"), (1, some "r2")]
    ∧ fieldStep ⟨fun _ => true, 0, false⟩ [] 0
        ⟨some "r1", some "A", some "short_text", []⟩ ⟨0, []⟩ =
      (⟨2, [.visit 0 (some "r1"), .typeText "N/A", .errLog (some "r1"),
        .press "Enter"]⟩, .ok ()) := by
  have h := C7_field_failure_caught_logged_advanced_loop_continues
    ⟨fun _ => true, 0, false⟩ [] 0
    [⟨some "r1", some "A", some "short_text", []⟩,
     ⟨some "r2", some "B", some "multiple_choice", []⟩] ⟨0, []⟩
  refine ⟨h.1.1, ?_, ?_⟩
  · rw [h.1.2]
    rfl
  · have h3 := h.2 ⟨some "r1", some "A", some "short_text", []⟩
      ⟨1, [.visit 0 (some "r1"), .typeText "N/A"]⟩ (by decide)
    exact h3

/-! ## C9 -/

theorem att_app_ok2 {env : Env} (e : Ev) (s : St) (h : env.fails s.k = false) :
    att env e s = (⟨s.k + 1, s.tr ++ [e]⟩, .ok ()) := att_app_ok e h

/-- The unprotected navigation prefix in a run whose first four calls
succeed. -/
theorem navOpen_app {env : Env} (url : String) (s : St)
    (g0 : env.fails s.k = false) (g1 : env.fails (s.k + 1) = false)
    (g2 : env.fails (s.k + 2) = false) (g3 : env.fails (s.k + 3) = false) :
    navOpen env url s =
      (⟨s.k + 4, s.tr ++ [.launch, .newPage, .goto url, .waitLoad]⟩, .ok ()) := by
  unfold navOpen
  rw [bind_app_ok (att_app_ok2 _ s g0)]
  rw [bind_app_ok (att_app_ok2 _ ⟨s.k + 1, s.tr ++ [Ev.launch]⟩ g1)]
  rw [bind_app_ok (att_app_ok2 _
    ⟨s.k + 1 + 1, (s.tr ++ [Ev.launch]) ++ [Ev.newPage]⟩ g2)]
  rw [att_app_ok2 _
    ⟨s.k + 1 + 1 + 1, ((s.tr ++ [Ev.launch]) ++ [Ev.newPage]) ++ [Ev.goto url]⟩ g3]
  simp

theorem tryAll_pure_snd {m : M Unit} (s : St) : (tryAll m (pure ()) s).2 = .ok () := by
  rcases h : m s with ⟨s1, o⟩
  cases o with
  | ok a =>
    rw [tryAll_app_ok h]
  | exn =>
    rw [tryAll_app_exn h]
    rfl

/-- The start-button block swallows every exception. -/
theorem startBlock_ok (env : Env) (s : St) : (startBlock env s).2 = .ok () := by
  unfold startBlock
  exact tryAll_pure_snd s

/-- The final-submission block swallows every exception. -/
theorem finalSubmit_ok (env : Env) (s : St) : (finalSubmit env s).2 = .ok () := by
  unfold finalSubmit
  exact tryAll_pure_snd s

/-- **C9 counterexample**: when `page.goto` raises (call index 2), the
exception escapes `fill_and_submit_form` — the run ends exceptionally
with only `[launch, newPage, goto]` attempted and `browser.close()` is
never invoked, contradicting "explicitly closed … including when an
exception escapes during page navigation". -/
theorem C9_counterexample :
    (runFill ⟨fun n => n == 2, 0, false⟩ "u" [] []).2 = .exn
    ∧ (runFill ⟨fun n => n == 2, 0, false⟩ "u" [] []).1.tr
        = [.launch, .newPage, .goto "u"]
    ∧ (Ev.close ∈ [Ev.launch, Ev.newPage, Ev.goto "u"] → False) := by
  refine ⟨by decide, by decide, by decide⟩

/-- **C9 (amended)**: whenever the four unprotected navigation calls
(launch, new page, goto, load-wait) succeed, `browser.close()` is reached
and is the last call of the attempt no matter what else fails — the
start-button block, each field interaction and the final submission catch
their exceptions; but an exception during that navigation prefix escapes
before `browser.close()` (see the counterexample), the `with`-block exit
being the only cleanup then. -/
theorem C9_close_invoked_when_navigation_succeeds
    (env : Env) (url : String) (fields : List Field) (answers : AnswerMap)
    (s : St)
    (g0 : env.fails s.k = false) (g1 : env.fails (s.k + 1) = false)
    (g2 : env.fails (s.k + 2) = false) (g3 : env.fails (s.k + 3) = false) :
    ∃ t, (fill_and_submit_form env url fields answers s).1.tr
      = s.tr ++ [.launch, .newPage, .goto url, .waitLoad] ++ t ++ [.close] := by
  unfold fill_and_submit_form
  rw [bind_app_ok (navOpen_app url s g0 g1 g2 g3)]
  rcases hsb : startBlock env
      ⟨s.k + 4, s.tr ++ [Ev.launch, Ev.newPage, Ev.goto url, Ev.waitLoad]⟩
    with ⟨s5, o5⟩
  have ho5 := startBlock_ok env
    ⟨s.k + 4, s.tr ++ [Ev.launch, Ev.newPage, Ev.goto url, Ev.waitLoad]⟩
  rw [hsb] at ho5
  subst ho5
  obtain ⟨t1, ht1, -⟩ := addsNoVisit_startBlock env
    ⟨s.k + 4, s.tr ++ [Ev.launch, Ev.newPage, Ev.goto url, Ev.waitLoad]⟩
  rw [hsb] at ht1
  rw [bind_app_ok hsb]
  rcases hrf : runFields env answers 0 fields s5 with ⟨s6, o6⟩
  obtain ⟨ho6, t2, ht2, -⟩ := runFields_app env answers fields 0 s5
  rw [hrf] at ho6 ht2
  subst ho6
  rw [bind_app_ok hrf]
  rcases hfs : finalSubmit env s6 with ⟨s7, o7⟩
  have ho7 := finalSubmit_ok env s6
  rw [hfs] at ho7
  subst ho7
  obtain ⟨t3, ht3, -⟩ := addsNoVisit_finalSubmit env s6
  rw [hfs] at ht3
  rw [bind_app_ok hfs]
  refine ⟨t1 ++ t2 ++ t3, ?_⟩
  show s7.tr ++ [Ev.close] = _
  rw [ht3, ht2, ht1]
  simp

/-- **C9 witness**: in a run where every call from index 4 on fails (the
start-button probe, every key press, the submission, even the close
itself), the navigation prefix having succeeded, the trace still ends
with the `browser.close()` attempt. -/
theorem C9_witness :
    ∃ t, (fill_and_submit_form ⟨fun n => Nat.ble 4 n, 1, true⟩ "u"
        [⟨some "r1", some "A", some "short_text", []⟩] [] ⟨0, []⟩).1.tr
      = [] ++ [.launch, .newPage, .goto "u", .waitLoad] ++ t ++ [.close] :=
  C9_close_invoked_when_navigation_succeeds ⟨fun n => Nat.ble 4 n, 1, true⟩ "u"
    [⟨some "r1", some "A", some "short_text", []⟩] [] ⟨0, []⟩
    (by decide) (by decide) (by decide) (by decide)

end Typeform
